import Mathlib

/-!
Verification of the audio pipeline in `src/App.tsx` and
`src/services/geminiService.ts` (the story/speech front end).

The pure transformations of the source are embedded as executable Lean
functions over byte lists (`List Nat`, each entry `< 256`):

* `decode`         — the base64 decoder built on `atob` (App.tsx, lines 8–16);
* `bytesToInt16`   — the `new Int16Array(data.buffer)` reinterpretation,
  which throws a `RangeError` when the byte length is odd;
* `decodeAudioData` — the playback-buffer builder (App.tsx, lines 18–35),
  floats modelled as `ℚ` (every value `k / 32768` with `|k| ≤ 32768` is
  exactly representable in binary32/64, so no rounding is lost);
* `createWavBytes` — `createWavBlob` (App.tsx, lines 44–72), producing the
  44-byte header plus little-endian samples;
* `handleGenerate` / `handlePlay` — the orchestration, modelled as state
  transitions over an `AppState` record mirroring the React state and refs.

`ctx.createBuffer(n, frameCount, rate)` is modelled as allocating
`⌊frameCount⌋` zero-filled frames per channel (Web IDL truncates the
fractional frame count that the source can compute); an out-of-bounds typed
array store is a no-op, so the net effect is the `⌊·⌋`-sized buffer built
below.
-/

namespace AudioPipeline

/-! ## Little-endian byte serialization (DataView.setUint16/32, setInt16) -/

/-- `view.setUint16(off, v, true)`: the two bytes of `v % 2^16`, little-endian. -/
def u16le (v : Nat) : List Nat := [v % 256, v / 256 % 256]

/-- `view.setUint32(off, v, true)`: the four bytes of `v % 2^32`, little-endian. -/
def u32le (v : Nat) : List Nat :=
  [v % 256, v / 256 % 256, v / 65536 % 256, v / 16777216 % 256]

/-- `view.setInt16(off, v, true)`: `ToInt16` reduces `v` modulo `2^16`, then the
two bytes are stored little-endian. -/
def int16le (v : Int) : List Nat := u16le (v % 65536).toNat

/-- `writeString(view, off, s)`: one byte per character, `charCodeAt` truncated
to a byte (the source only ever writes ASCII tags). -/
def strBytes (s : String) : List Nat := s.data.map (fun c => c.toNat % 256)

/-- Read an unsigned 16-bit little-endian field at byte offset `off`. -/
def readU16 (bs : List Nat) (off : Nat) : Nat :=
  bs.getD off 0 + 256 * bs.getD (off + 1) 0

/-- Read an unsigned 32-bit little-endian field at byte offset `off`. -/
def readU32 (bs : List Nat) (off : Nat) : Nat :=
  bs.getD off 0 + 256 * bs.getD (off + 1) 0 + 65536 * bs.getD (off + 2) 0 +
    16777216 * bs.getD (off + 3) 0

/-! ## Int16 reinterpretation (`new Int16Array(data.buffer)`) -/

/-- Two bytes, little-endian, as a signed 16-bit integer. -/
def int16OfBytes (lo hi : Nat) : Int :=
  let u := lo % 256 + 256 * (hi % 256)
  if u < 32768 then (u : Int) else (u : Int) - 65536

/-- Consecutive byte pairs as signed 16-bit little-endian integers; a trailing
odd byte never occurs where this is used (guarded by `bytesToInt16`). -/
def pairsToInt16 : List Nat → List Int
  | lo :: hi :: rest => int16OfBytes lo hi :: pairsToInt16 rest
  | _ => []

/-- `new Int16Array(data.buffer)`: throws a `RangeError` (here `none`) when the
buffer's byte length is not a multiple of 2, otherwise views the bytes as
signed 16-bit little-endian integers. -/
def bytesToInt16 (bs : List Nat) : Option (List Int) :=
  if bs.length % 2 = 0 then some (pairsToInt16 bs) else none

/-- The interleaved sample at flat index `j` of a raw byte sequence. -/
def pcmSample (data : List Nat) (j : Nat) : Int := (pairsToInt16 data).getD j 0

/-! ## WAV encoder (`createWavBlob`, App.tsx lines 44–72) -/

/-- `createWavBlob(pcmData, sampleRate)`: the byte content of the produced
blob. `numChannels` is the source's local constant 1; the header writes are
contiguous (offsets 0,4,8,12,16,20,22,24,28,32,34,36,40), so the buffer is
the concatenation below. -/
def createWavBytes (pcmData : List Int) (sampleRate : Nat) : List Nat :=
  let numChannels := 1
  let bitsPerSample := 16
  let dataSize := pcmData.length * 2
  let blockAlign := numChannels * bitsPerSample / 8
  let byteRate := sampleRate * blockAlign
  strBytes "RIFF" ++ u32le (36 + dataSize) ++ strBytes "WAVE" ++ strBytes "fmt " ++
    u32le 16 ++ u16le 1 ++ u16le numChannels ++ u32le sampleRate ++ u32le byteRate ++
    u16le blockAlign ++ u16le bitsPerSample ++ strBytes "data" ++ u32le dataSize ++
    (pcmData.map int16le).flatten

/-- The 44-byte header exactly as section 4.3 of the specification tabulates
it, written from the spec's field formulas (for comparison with
`createWavBytes`). -/
def specWavHeader (numChannels sampleRate dataSize : Nat) : List Nat :=
  strBytes "RIFF" ++ u32le (36 + dataSize) ++ strBytes "WAVE" ++ strBytes "fmt " ++
    u32le 16 ++ u16le 1 ++ u16le numChannels ++ u32le sampleRate ++
    u32le (sampleRate * numChannels * 2) ++ u16le (numChannels * 2) ++ u16le 16 ++
    strBytes "data" ++ u32le dataSize

/-- Decode the PCM payload of a WAV container: the bytes after the 44-byte
header, read as signed 16-bit little-endian samples. -/
def decodeWavData (bs : List Nat) : List Int := pairsToInt16 (bs.drop 44)

/-! ## Playback buffer builder (`decodeAudioData`, App.tsx lines 18–35) -/

/-- `decodeAudioData(data, ctx, sampleRate, numChannels)`: views the bytes as
`Int16Array` (failing on odd byte length), computes
`frameCount = dataInt16.length / numChannels` (the source's float quotient is
truncated by `ctx.createBuffer`; the loop's writes past that length are
out-of-bounds typed-array stores, i.e. no-ops), and fills
`channelData[c][i] = dataInt16[i * numChannels + c] / 32768.0`. -/
def decodeAudioData (data : List Nat) (numChannels : Nat) :
    Option (List (List ℚ)) :=
  match bytesToInt16 data with
  | none => none
  | some dataInt16 =>
    let frameCount := dataInt16.length / numChannels
    some ((List.range numChannels).map (fun channel =>
      (List.range frameCount).map (fun i =>
        ((dataInt16.getD (i * numChannels + channel) 0 : Int) : ℚ) / 32768)))

/-! ## Base64 decoder (`decode`, App.tsx lines 8–16)

`decode` runs `atob` and copies the character codes into a byte array.
`atob` implements the WHATWG forgiving-base64 decode: ASCII whitespace is
removed; when the remaining length is a multiple of 4, up to two trailing
`=` are stripped; a remaining length of 1 mod 4 or any character outside the
base64 alphabet is an error (`InvalidCharacterError`, here `none`);
otherwise each character contributes 6 bits and every full 8 bits emits a
byte, trailing excess bits being discarded. -/

/-- The value of a base64 alphabet character, `none` for anything else. -/
def b64Val (c : Char) : Option Nat :=
  if 'A' ≤ c ∧ c ≤ 'Z' then some (c.toNat - 65)
  else if 'a' ≤ c ∧ c ≤ 'z' then some (c.toNat - 71)
  else if '0' ≤ c ∧ c ≤ '9' then some (c.toNat + 4)
  else if c = '+' then some 62
  else if c = '/' then some 63
  else none

/-- ASCII whitespace, which forgiving-base64 removes before decoding. -/
def isB64Whitespace (c : Char) : Bool :=
  c = ' ' ∨ c = '\t' ∨ c = '\n' ∨ c = '\x0c' ∨ c = '\r'

/-- Strip one or two trailing `=` characters. -/
def stripPad (cs : List Char) : List Char :=
  match cs.reverse with
  | '=' :: '=' :: rest => rest.reverse
  | '=' :: rest => rest.reverse
  | _ => cs

/-- Emit a byte for every full 8 bits of the 6-bit groups; `acc`/`bits` hold
the pending bits (at most 7 of them between steps). -/
def b64Bits : List Nat → Nat → Nat → List Nat
  | [], _, _ => []
  | v :: rest, acc, bits =>
    let acc' := acc * 64 + v
    let bits' := bits + 6
    if 8 ≤ bits' then
      acc' / 2 ^ (bits' - 8) :: b64Bits rest (acc' % 2 ^ (bits' - 8)) (bits' - 8)
    else
      b64Bits rest acc' bits'

/-- `decode(base64)` from App.tsx: `atob` then one byte per character code. -/
def decode (s : String) : Option (List Nat) :=
  let cs := s.data.filter (fun c => ¬ isB64Whitespace c)
  let cs := if cs.length % 4 = 0 then stripPad cs else cs
  if cs.length % 4 = 1 then none
  else
    match cs.mapM b64Val with
    | none => none
    | some vs => some (b64Bits vs 0 0)

/-! ## The success-path data flow of `handleGenerate` (App.tsx lines 151–163)

One `decode` call produces `audioBytes`; the WAV blob is built from the
`Int16Array` view of those bytes, and the playback buffer from the same
bytes; neither consumer re-decodes the base64 input. -/

/-- The pure decode → interpret → { WAV, playback buffer } chain of
`handleGenerate`: `none` when `atob` or the `Int16Array` view throws. -/
def audioPipeline (base64Audio : String) : Option (List Nat × List (List ℚ)) :=
  match decode base64Audio with
  | none => none
  | some audioBytes =>
    match bytesToInt16 audioBytes with
    | none => none
    | some dataInt16 =>
      match decodeAudioData audioBytes 1 with
      | none => none
      | some buffer => some (createWavBytes dataInt16 24000, buffer)

/-! ## Orchestration (`App`, `handleGenerate`, `handlePlay`)

The React component state and refs are modelled as an `AppState` record; a
blob URL is a `Nat` handle, `liveUrls` the set of object URLs created and
not yet revoked, `ctxCreated` the number of `AudioContext` instances ever
constructed. `generateSpeech` (geminiService.ts lines 39–100) wraps every
internal failure — the API call throwing, or a response with no audio
payload (whose `throw` sits inside the same `try`) — into the fixed
`Error("Failed to generate speech.")`, the original error being only
`console.error`-logged. -/

/-- An error surfaced by a pipeline step, as caught by `handleGenerate`. -/
inductive PipelineError where
  /-- `Error("Failed to generate speech.")` rethrown by `generateSpeech`. -/
  | speechFailed
  /-- `InvalidCharacterError` thrown by `atob` on malformed base64. -/
  | invalidCharacter
  /-- `RangeError` thrown by `new Int16Array` on an odd byte length. -/
  | rangeError
  deriving DecidableEq, Repr

/-- The `message` of the surfaced error object. -/
def PipelineError.message : PipelineError → String
  | .speechFailed => "Failed to generate speech."
  | .invalidCharacter => "The string to be decoded is not correctly encoded."
  | .rangeError => "byte length of Int16Array should be a multiple of 2"

/-- The error slot of the UI state (`setError`). -/
inductive UiError where
  /-- `t('errorEnterText')` for a blank input. -/
  | enterText
  /-- A caught pipeline error rendered as `errorPrefix + e.message`. -/
  | wrapped (e : PipelineError)
  deriving DecidableEq, Repr

/-- What the remote speech service did for this request. -/
inductive SpeechOutcome where
  /-- The call returned a base64 audio payload. -/
  | payload (base64Audio : String)
  /-- The response carried no `inlineData` field. -/
  | noAudio
  /-- The API call itself threw, with this message as the cause. -/
  | apiError (cause : String)
  deriving DecidableEq, Repr

/-- `generateSpeech(text, voice)`: on success the base64 payload; every
failure — including the missing-payload `throw`, which its own `catch`
intercepts — is rethrown as the fixed `Error("Failed to generate speech.")`
and the originating cause is only logged. -/
def generateSpeech : SpeechOutcome → Except PipelineError String
  | .payload b64 => .ok b64
  | .noAudio => .error .speechFailed
  | .apiError _cause => .error .speechFailed

/-- The audio-output context held in `audioContextRef` (`new
AudioContext({sampleRate: 24000})`). -/
structure AudioCtx where
  /-- Identity of the instance (creation order), to observe reuse. -/
  id : Nat
  /-- The sample rate the instance was constructed with. -/
  sampleRate : Nat
  /-- Whether the context is in the `suspended` state. -/
  suspended : Bool
  deriving DecidableEq, Repr

/-- The component state and refs of `App` that the pipeline touches. -/
structure AppState where
  /-- `error` state (`setError`). -/
  error : Option UiError
  /-- `audioUrl` state: the currently exposed blob-URL handle. -/
  audioUrl : Option Nat
  /-- `audioBuffer` state: the playback buffer, when one is held. -/
  audioBuffer : Option (List (List ℚ))
  /-- `audioContextRef.current`. -/
  ctx : Option AudioCtx
  /-- How many `AudioContext` instances were ever constructed. -/
  ctxCreated : Nat
  /-- Object URLs created by `URL.createObjectURL` and not yet revoked. -/
  liveUrls : List Nat
  /-- Next fresh object-URL handle. -/
  nextUrl : Nat
  /-- Buffers handed to a started `AudioBufferSourceNode`, newest first. -/
  playing : List (List (List ℚ))
  deriving DecidableEq, Repr

/-- The state when `App` mounts: empty slots, no context, nothing created. -/
def initialState : AppState :=
  { error := none, audioUrl := none, audioBuffer := none, ctx := none,
    ctxCreated := 0, liveUrls := [], nextUrl := 0, playing := [] }

/-- Lines 138–142 of `handleGenerate`: `if (audioUrl)
URL.revokeObjectURL(audioUrl); setAudioUrl(null); setAudioBuffer(null)`,
together with `setError(null)` from line 137. -/
def clearPrevUrl (st : AppState) : AppState :=
  { st with
    error := none
    liveUrls := match st.audioUrl with
      | some h => st.liveUrls.erase h
      | none => st.liveUrls
    audioUrl := none
    audioBuffer := none }

/-- Lines 145–148: create the `AudioContext` lazily at 24000 Hz, reusing any
existing instance. -/
def ensureCtx (st : AppState) : AppState :=
  match st.ctx with
  | some _ => st
  | none =>
    { st with ctx := some ⟨st.ctxCreated, 24000, false⟩,
              ctxCreated := st.ctxCreated + 1 }

/-- The `!text.trim()` guard of `handleGenerate`: true exactly when the text
holds no non-whitespace character, i.e. trimming leaves it empty. -/
def isBlank (s : String) : Bool := s.data.all (fun c => c.isWhitespace)

/-- `handleGenerate` (App.tsx lines 130–171): blank text sets
`errorEnterText` and returns; otherwise the previous URL is revoked and the
slots cleared, the context is created lazily, and the speech → decode →
Int16Array → { WAV blob + object URL, playback buffer } chain runs, any
thrown error landing in the `catch` as a wrapped UI error. -/
def handleGenerate (text : String) (speech : SpeechOutcome) (st : AppState) :
    AppState :=
  if isBlank text then { st with error := some .enterText }
  else
    let st1 := ensureCtx (clearPrevUrl st)
    match generateSpeech speech with
    | .error e => { st1 with error := some (.wrapped e) }
    | .ok base64Audio =>
      match decode base64Audio with
      | none => { st1 with error := some (.wrapped .invalidCharacter) }
      | some audioBytes =>
        match bytesToInt16 audioBytes with
        | none => { st1 with error := some (.wrapped .rangeError) }
        | some dataInt16 =>
          let _wavBlob := createWavBytes dataInt16 24000
          let url := st1.nextUrl
          let st2 := { st1 with audioUrl := some url,
                                liveUrls := url :: st1.liveUrls,
                                nextUrl := st1.nextUrl + 1 }
          match decodeAudioData audioBytes 1 with
          | none => { st2 with error := some (.wrapped .rangeError) }
          | some buffer => { st2 with audioBuffer := some buffer }

/-- `handlePlay` (App.tsx lines 173–185): `if (!audioBuffer ||
!audioContextRef.current) return;`, then resume a suspended context and
start a source node with the held buffer. -/
def handlePlay (st : AppState) : AppState :=
  match st.audioBuffer, st.ctx with
  | some buffer, some c =>
    { st with ctx := some { c with suspended := false },
              playing := buffer :: st.playing }
  | _, _ => st

/-- A user interaction that touches the audio pipeline. -/
inductive Event where
  /-- Press Generate with this text; the service answers as given. -/
  | generate (text : String) (speech : SpeechOutcome)
  /-- Press Play. -/
  | play
  deriving DecidableEq, Repr

/-- One user interaction applied to the state. -/
def step (st : AppState) : Event → AppState
  | .generate text speech => handleGenerate text speech st
  | .play => handlePlay st

/-- The state after a sequence of interactions from a fresh mount. -/
def run (events : List Event) : AppState := events.foldl step initialState

/-! ## Header layout lemmas -/

lemma specWavHeader_explicit (n r d : Nat) : specWavHeader n r d =
    [82, 73, 70, 70,
     (36 + d) % 256, (36 + d) / 256 % 256, (36 + d) / 65536 % 256,
     (36 + d) / 16777216 % 256,
     87, 65, 86, 69, 102, 109, 116, 32,
     16, 0, 0, 0, 1, 0,
     n % 256, n / 256 % 256,
     r % 256, r / 256 % 256, r / 65536 % 256, r / 16777216 % 256,
     (r * n * 2) % 256, (r * n * 2) / 256 % 256, (r * n * 2) / 65536 % 256,
     (r * n * 2) / 16777216 % 256,
     (n * 2) % 256, (n * 2) / 256 % 256, 16, 0,
     100, 97, 116, 97,
     d % 256, d / 256 % 256, d / 65536 % 256, d / 16777216 % 256] := rfl

lemma specWavHeader_length (n r d : Nat) : (specWavHeader n r d).length = 44 := by
  rw [specWavHeader_explicit]; rfl

lemma createWavBytes_eq (S : List Int) (R : Nat) :
    createWavBytes S R =
      specWavHeader 1 R (S.length * 2) ++ (S.map int16le).flatten := by
  simp [createWavBytes, specWavHeader, mul_one]

lemma int16le_length (s : Int) : (int16le s).length = 2 := rfl

lemma flatten_int16le_length (S : List Int) :
    ((S.map int16le).flatten).length = 2 * S.length := by
  induction S with
  | nil => rfl
  | cons s rest ih =>
    simp only [List.map_cons, List.flatten_cons, List.length_append,
      int16le_length, ih, List.length_cons]
    omega

lemma createWavBytes_length (S : List Int) (R : Nat) :
    (createWavBytes S R).length = 44 + S.length * 2 := by
  rw [createWavBytes_eq, List.length_append, specWavHeader_length,
    flatten_int16le_length]
  omega

lemma readU32_append_left (xs ys : List Nat) (off : Nat) (h : off + 3 < xs.length) :
    readU32 (xs ++ ys) off = readU32 xs off := by
  unfold readU32
  rw [List.getD_append _ _ _ _ (by omega), List.getD_append _ _ _ _ (by omega),
    List.getD_append _ _ _ _ (by omega), List.getD_append _ _ _ _ (by omega)]

lemma readU16_append_left (xs ys : List Nat) (off : Nat) (h : off + 1 < xs.length) :
    readU16 (xs ++ ys) off = readU16 xs off := by
  unfold readU16
  rw [List.getD_append _ _ _ _ (by omega), List.getD_append _ _ _ _ (by omega)]

lemma specWavHeader_chunkSize (n r d : Nat) (h : 36 + d < 4294967296) :
    readU32 (specWavHeader n r d) 4 = 36 + d := by
  rw [specWavHeader_explicit]
  show (36 + d) % 256 + 256 * ((36 + d) / 256 % 256) +
    65536 * ((36 + d) / 65536 % 256) + 16777216 * ((36 + d) / 16777216 % 256) = 36 + d
  omega

lemma specWavHeader_numChannels (n r d : Nat) (h : n < 65536) :
    readU16 (specWavHeader n r d) 22 = n := by
  rw [specWavHeader_explicit]
  show n % 256 + 256 * (n / 256 % 256) = n
  omega

lemma specWavHeader_sampleRate (n r d : Nat) (h : r < 4294967296) :
    readU32 (specWavHeader n r d) 24 = r := by
  rw [specWavHeader_explicit]
  show r % 256 + 256 * (r / 256 % 256) + 65536 * (r / 65536 % 256) +
    16777216 * (r / 16777216 % 256) = r
  omega

lemma specWavHeader_byteRate (n r d : Nat) (h : r * n * 2 < 4294967296) :
    readU32 (specWavHeader n r d) 28 = r * n * 2 := by
  rw [specWavHeader_explicit]
  show (r * n * 2) % 256 + 256 * ((r * n * 2) / 256 % 256) +
    65536 * ((r * n * 2) / 65536 % 256) + 16777216 * ((r * n * 2) / 16777216 % 256) =
    r * n * 2
  omega

lemma specWavHeader_blockAlign (n r d : Nat) (h : n * 2 < 65536) :
    readU16 (specWavHeader n r d) 32 = n * 2 := by
  rw [specWavHeader_explicit]
  show (n * 2) % 256 + 256 * ((n * 2) / 256 % 256) = n * 2
  omega

lemma specWavHeader_bitsPerSample (n r d : Nat) :
    readU16 (specWavHeader n r d) 34 = 16 := by
  rw [specWavHeader_explicit]; rfl

lemma specWavHeader_dataSize (n r d : Nat) (h : d < 4294967296) :
    readU32 (specWavHeader n r d) 40 = d := by
  rw [specWavHeader_explicit]
  show d % 256 + 256 * (d / 256 % 256) + 65536 * (d / 65536 % 256) +
    16777216 * (d / 16777216 % 256) = d
  omega

/-! ## Int16 round-trip lemmas -/

lemma pairsToInt16_int16le (s : Int) (rest : List Nat)
    (h1 : -32768 ≤ s) (h2 : s ≤ 32767) :
    pairsToInt16 (int16le s ++ rest) = s :: pairsToInt16 rest := by
  show pairsToInt16
      ((s % 65536).toNat % 256 :: (s % 65536).toNat / 256 % 256 :: rest) = _
  rw [pairsToInt16]
  congr 1
  simp only [int16OfBytes]
  split_ifs <;> omega

lemma pairsToInt16_flatten (S : List Int)
    (hS : ∀ s ∈ S, -32768 ≤ s ∧ s ≤ 32767) :
    pairsToInt16 ((S.map int16le).flatten) = S := by
  induction S with
  | nil => rfl
  | cons s rest ih =>
    simp only [List.map_cons, List.flatten_cons]
    rw [pairsToInt16_int16le s _ (hS s (by simp)).1 (hS s (by simp)).2,
      ih (fun x hx => hS x (by simp [hx]))]

lemma pairsToInt16_length : ∀ bs : List Nat, (pairsToInt16 bs).length = bs.length / 2
  | [] => by simp [pairsToInt16]
  | [_] => by simp [pairsToInt16]
  | _ :: _ :: rest => by
    rw [pairsToInt16, List.length_cons, pairsToInt16_length rest]
    simp only [List.length_cons]
    omega

lemma int16OfBytes_bounds (lo hi : Nat) :
    -32768 ≤ int16OfBytes lo hi ∧ int16OfBytes lo hi ≤ 32767 := by
  simp only [int16OfBytes]
  split_ifs <;> constructor <;> omega

lemma pairsToInt16_mem_bounds :
    ∀ bs : List Nat, ∀ s ∈ pairsToInt16 bs, -32768 ≤ s ∧ s ≤ 32767
  | [] => by simp [pairsToInt16]
  | [_] => by simp [pairsToInt16]
  | a :: b :: rest => by
    rw [pairsToInt16]
    intro s hs
    rcases List.mem_cons.mp hs with h | h
    · subst h; exact int16OfBytes_bounds a b
    · exact pairsToInt16_mem_bounds rest s h

lemma pcmSample_bounds (data : List Nat) (j : Nat) :
    -32768 ≤ pcmSample data j ∧ pcmSample data j ≤ 32767 := by
  unfold pcmSample
  by_cases h : j < (pairsToInt16 data).length
  · rw [List.getD_eq_getElem _ _ h]
    exact pairsToInt16_mem_bounds data _ (List.getElem_mem h)
  · rw [List.getD_eq_default _ _ (by omega)]
    constructor <;> norm_num

lemma normalized_of_int16 (s : Int) (h1 : -32768 ≤ s) (h2 : s ≤ 32767) :
    -1 ≤ (s : ℚ) / 32768 ∧ (s : ℚ) / 32768 < 1 := by
  constructor
  · rw [le_div_iff₀ (by norm_num : (0 : ℚ) < 32768)]
    have hs : (-32768 : ℚ) ≤ (s : ℚ) := by exact_mod_cast h1
    linarith
  · rw [div_lt_one (by norm_num : (0 : ℚ) < 32768)]
    have hs : (s : ℚ) ≤ 32767 := by exact_mod_cast h2
    linarith

/-! ## Claims C1 and C2: the WAV encoder -/

/-- C1: for every interleaved 16-bit PCM sample sequence and positive sample
rate, the encoder's first 44 bytes are exactly the section-4.3 header —
`RIFF`, ChunkSize `36 + dataSize`, `WAVE`, `fmt `, fmt-chunk size 16, format
tag 1, numChannels (1 here), sampleRate, byte rate, block align, bits per
sample 16, `data`, dataSize — all little-endian; the output length is
`44 + dataSize`, and encoding an empty sample sequence at rate 24000 yields
exactly 44 bytes with ChunkSize 36 and dataSize 0. The two numeric bounds
are exactly the capacity of the 32-bit header fields being read back; the
output is deterministic because `createWavBytes` is a function of its two
arguments alone. -/
theorem C1_wav_header_exact (pcm : List Int) (R : Nat) (hR : 0 < R)
    (hR32 : R * 2 < 4294967296) (hlen : 36 + pcm.length * 2 < 4294967296) :
    (createWavBytes pcm R).take 44 = specWavHeader 1 R (pcm.length * 2) ∧
    (createWavBytes pcm R).length = 44 + pcm.length * 2 ∧
    readU32 (createWavBytes pcm R) 4 = 36 + pcm.length * 2 ∧
    readU16 (createWavBytes pcm R) 22 = 1 ∧
    readU32 (createWavBytes pcm R) 24 = R ∧
    readU32 (createWavBytes pcm R) 28 = R * 2 ∧
    readU16 (createWavBytes pcm R) 32 = 2 ∧
    readU16 (createWavBytes pcm R) 34 = 16 ∧
    readU32 (createWavBytes pcm R) 40 = pcm.length * 2 ∧
    (createWavBytes [] 24000).length = 44 ∧
    readU32 (createWavBytes [] 24000) 4 = 36 ∧
    readU32 (createWavBytes [] 24000) 40 = 0 := by
  have e := createWavBytes_eq pcm R
  have hhl := specWavHeader_length 1 R (pcm.length * 2)
  refine ⟨?_, createWavBytes_length pcm R, ?_, ?_, ?_, ?_, ?_, ?_, ?_,
    by decide, by decide, by decide⟩
  · rw [e, show (44 : Nat) = (specWavHeader 1 R (pcm.length * 2)).length from
      hhl.symm, List.take_left]
  · rw [e, readU32_append_left _ _ _ (by omega),
      specWavHeader_chunkSize _ _ _ (by omega)]
  · rw [e, readU16_append_left _ _ _ (by omega),
      specWavHeader_numChannels _ _ _ (by omega)]
  · rw [e, readU32_append_left _ _ _ (by omega),
      specWavHeader_sampleRate _ _ _ (by omega)]
  · rw [e, readU32_append_left _ _ _ (by omega),
      specWavHeader_byteRate _ _ _ (by omega)]
    omega
  · rw [e, readU16_append_left _ _ _ (by omega),
      specWavHeader_blockAlign _ _ _ (by omega)]
  · rw [e, readU16_append_left _ _ _ (by omega), specWavHeader_bitsPerSample]
  · rw [e, readU32_append_left _ _ _ (by omega),
      specWavHeader_dataSize _ _ _ (by omega)]

/-- Witness for C1 at the concrete input `pcm = [1, -32768]`, `R = 24000`. -/
theorem C1_wav_header_exact_witness :
    (0 < 24000 ∧ 24000 * 2 < 4294967296 ∧ 36 + 2 * 2 < 4294967296) ∧
    ((createWavBytes [1, -32768] 24000).take 44 = specWavHeader 1 24000 (2 * 2) ∧
     (createWavBytes [1, -32768] 24000).length = 44 + 2 * 2 ∧
     readU32 (createWavBytes [1, -32768] 24000) 4 = 36 + 2 * 2 ∧
     readU16 (createWavBytes [1, -32768] 24000) 22 = 1 ∧
     readU32 (createWavBytes [1, -32768] 24000) 24 = 24000 ∧
     readU32 (createWavBytes [1, -32768] 24000) 28 = 24000 * 2 ∧
     readU16 (createWavBytes [1, -32768] 24000) 32 = 2 ∧
     readU16 (createWavBytes [1, -32768] 24000) 34 = 16 ∧
     readU32 (createWavBytes [1, -32768] 24000) 40 = 2 * 2 ∧
     (createWavBytes [] 24000).length = 44 ∧
     readU32 (createWavBytes [] 24000) 4 = 36 ∧
     readU32 (createWavBytes [] 24000) 40 = 0) :=
  ⟨⟨by norm_num, by norm_num, by norm_num⟩,
    C1_wav_header_exact [1, -32768] 24000 (by norm_num) (by norm_num) (by norm_num)⟩

/-- C2: decoding the WAV container produced by the encoder recovers exactly
the sample sequence: the samples sit little-endian from byte offset 44
onward, in order and unchanged, and the header's dataSize field equals
`len(S) * 2`. -/
theorem C2_roundtrip (S : List Int) (R : Nat)
    (hS : ∀ s ∈ S, -32768 ≤ s ∧ s ≤ 32767)
    (hlen : S.length * 2 < 4294967296) :
    decodeWavData (createWavBytes S R) = S ∧
    (createWavBytes S R).drop 44 = (S.map int16le).flatten ∧
    readU32 (createWavBytes S R) 40 = S.length * 2 := by
  have e := createWavBytes_eq S R
  have hhl := specWavHeader_length 1 R (S.length * 2)
  have hdrop : (createWavBytes S R).drop 44 = (S.map int16le).flatten := by
    rw [e, show (44 : Nat) = (specWavHeader 1 R (S.length * 2)).length from
      hhl.symm, List.drop_left]
  refine ⟨?_, hdrop, ?_⟩
  · unfold decodeWavData
    rw [hdrop, pairsToInt16_flatten S hS]
  · rw [e, readU32_append_left _ _ _ (by omega),
      specWavHeader_dataSize _ _ _ (by omega)]

/-- Witness for C2 at the concrete input `S = [0, 32767, -32768, -1]`,
`R = 8000`. -/
theorem C2_roundtrip_witness :
    (∀ s ∈ ([0, 32767, -32768, -1] : List Int), -32768 ≤ s ∧ s ≤ 32767) ∧
    (decodeWavData (createWavBytes [0, 32767, -32768, -1] 8000) =
        [0, 32767, -32768, -1] ∧
      (createWavBytes [0, 32767, -32768, -1] 8000).drop 44 =
        (([0, 32767, -32768, -1] : List Int).map int16le).flatten ∧
      readU32 (createWavBytes [0, 32767, -32768, -1] 8000) 40 = 4 * 2) :=
  ⟨by decide, C2_roundtrip [0, 32767, -32768, -1] 8000 (by decide) (by norm_num)⟩

/-! ## Claims C3 and C4: the playback buffer builder -/

lemma getD_range_map {α : Type} (f : Nat → α) (d : α) {n c : Nat} (h : c < n) :
    ((List.range n).map f).getD c d = f c := by
  rw [List.getD_eq_getElem _ _ (by simpa using h)]
  simp

lemma decodeAudioData_even (data : List Nat) (n : Nat) (h : data.length % 2 = 0) :
    decodeAudioData data n = some ((List.range n).map fun c =>
      (List.range (data.length / 2 / n)).map fun i =>
        ((pcmSample data (i * n + c) : Int) : ℚ) / 32768) := by
  unfold decodeAudioData
  rw [show bytesToInt16 data = some (pairsToInt16 data) from by
    unfold bytesToInt16; rw [if_pos h]]
  simp only [pairsToInt16_length]
  rfl

lemma decodeAudioData_odd (data : List Nat) (n : Nat) (h : data.length % 2 ≠ 0) :
    decodeAudioData data n = none := by
  unfold decodeAudioData
  rw [show bytesToInt16 data = none from by unfold bytesToInt16; rw [if_neg h]]

/-- C3: for every PCM sample frame view (an even byte sequence holding
`numChannels * k` samples) with `numChannels ≥ 1`, the playback buffer
builder produces per-channel arrays with
`channelData[c][i] = pcmSample(i * numChannels + c) / 32768.0`, frame
ordering preserved; every produced value `v` satisfies `-1.0 ≤ v < 1.0`, and
concretely sample `-32768` (bytes `00 80`) maps to `-1.0` while sample
`32767` (bytes `FF 7F`) maps to `32767/32768`. -/
theorem C3_playback_normalization (data : List Nat) (numChannels k : Nat)
    (hn : 1 ≤ numChannels) (hlen : data.length = 2 * numChannels * k) :
    ∃ cd, decodeAudioData data numChannels = some cd ∧
      cd.length = numChannels ∧
      (∀ c, c < numChannels → (cd.getD c []).length = k) ∧
      (∀ c i, c < numChannels → i < k →
        (cd.getD c []).getD i 0 =
          ((pcmSample data (i * numChannels + c) : Int) : ℚ) / 32768 ∧
        -1 ≤ (cd.getD c []).getD i 0 ∧ (cd.getD c []).getD i 0 < 1) ∧
      decodeAudioData [0, 128] 1 = some [[-1]] ∧
      decodeAudioData [255, 127] 1 = some [[32767 / 32768]] := by
  have h2 : data.length % 2 = 0 := by
    rw [hlen, show 2 * numChannels * k = numChannels * k * 2 from by ring,
      Nat.mul_mod_left]
  have hk : data.length / 2 / numChannels = k := by
    rw [hlen, show 2 * numChannels * k = 2 * (numChannels * k) from by ring,
      Nat.mul_div_cancel_left (numChannels * k) (by norm_num : 0 < 2),
      Nat.mul_div_cancel_left k hn]
  refine ⟨_, decodeAudioData_even data numChannels h2, by simp, ?_, ?_,
    by rw [decodeAudioData_even _ _ (by norm_num)]
       norm_num [pcmSample, pairsToInt16, int16OfBytes, List.range_succ,
         List.range_zero],
    by rw [decodeAudioData_even _ _ (by norm_num)]
       norm_num [pcmSample, pairsToInt16, int16OfBytes, List.range_succ,
         List.range_zero]⟩
  · intro c hc
    rw [getD_range_map _ _ hc]
    simp [hk]
  · intro c i hc hi
    rw [getD_range_map _ _ hc, hk, getD_range_map _ _ hi]
    obtain ⟨hlo, hhi⟩ := pcmSample_bounds data (i * numChannels + c)
    exact ⟨rfl, (normalized_of_int16 _ hlo hhi).1, (normalized_of_int16 _ hlo hhi).2⟩

/-- Witness for C3 at the concrete mono input `data = [0, 128, 255, 127]`
(samples `-32768` and `32767`), `numChannels = 1`, `k = 2` frames. -/
theorem C3_playback_normalization_witness :
    (1 ≤ 1 ∧ ([0, 128, 255, 127] : List Nat).length = 2 * 1 * 2) ∧
    (∃ cd, decodeAudioData [0, 128, 255, 127] 1 = some cd ∧
      cd.length = 1 ∧
      (∀ c, c < 1 → (cd.getD c []).length = 2) ∧
      (∀ c i, c < 1 → i < 2 →
        (cd.getD c []).getD i 0 =
          ((pcmSample [0, 128, 255, 127] (i * 1 + c) : Int) : ℚ) / 32768 ∧
        -1 ≤ (cd.getD c []).getD i 0 ∧ (cd.getD c []).getD i 0 < 1) ∧
      decodeAudioData [0, 128] 1 = some [[-1]] ∧
      decodeAudioData [255, 127] 1 = some [[32767 / 32768]]) :=
  ⟨⟨by norm_num, by decide⟩,
    C3_playback_normalization [0, 128, 255, 127] 1 2 (by norm_num) (by decide)⟩

/-- Counterexample to C4: a 6-byte sequence with `numChannels = 2` is not a
multiple of `2 * numChannels = 4`, yet `decodeAudioData` does not fail at
all — there is no `MalformedAudioError` in the code — and instead silently
truncates the three 16-bit samples to a single frame per channel. -/
theorem C4_counterexample :
    ¬ ((6 : Nat) % (2 * 2) = 0) ∧
    decodeAudioData [0, 0, 0, 0, 0, 0] 2 = some [[0], [0]] := by
  refine ⟨by decide, ?_⟩
  rw [decodeAudioData_even _ _ (by norm_num)]
  norm_num [pcmSample, pairsToInt16, int16OfBytes, List.range_succ,
    List.range_zero]

/-- C4 as amended: the PCM interpretation step never raises a
`MalformedAudioError`. An odd byte length makes the `Int16Array` view throw
a `RangeError` (modelled as `none`); any even byte length succeeds with
`frameCount = ⌊(length / 2) / numChannels⌋`, silently discarding trailing
samples that do not fill a frame, and for 10 bytes mono the frame count is
5 as the claim's example states. -/
theorem C4_amended_no_reject (data : List Nat) (numChannels : Nat)
    (_hn : 1 ≤ numChannels) :
    (data.length % 2 ≠ 0 → decodeAudioData data numChannels = none) ∧
    (data.length % 2 = 0 → ∃ cd, decodeAudioData data numChannels = some cd ∧
      cd.length = numChannels ∧
      ∀ ch ∈ cd, ch.length = data.length / 2 / numChannels) ∧
    decodeAudioData (List.replicate 10 0) 1 = some [List.replicate 5 0] := by
  refine ⟨decodeAudioData_odd data numChannels, ?_,
    by rw [decodeAudioData_even _ _ (by norm_num)]
       norm_num [pcmSample, pairsToInt16, int16OfBytes, List.range_succ,
         List.range_zero, List.replicate]⟩
  intro h
  refine ⟨_, decodeAudioData_even data numChannels h, by simp, ?_⟩
  intro ch hch
  rcases List.mem_map.mp hch with ⟨c, _, rfl⟩
  simp

/-- Witness for C4's amended statement at the odd input `[0, 0, 0]` with one
channel. -/
theorem C4_amended_no_reject_witness :
    (1 ≤ 1 ∧ ([0, 0, 0] : List Nat).length % 2 ≠ 0) ∧
    decodeAudioData [0, 0, 0] 1 = none :=
  ⟨⟨by norm_num, by decide⟩,
    (C4_amended_no_reject [0, 0, 0] 1 (by norm_num)).1 (by decide)⟩

/-! ## Claim C5: the end-to-end scenario -/

/-- C5: any base64 input decoding to the bytes `[0x00, 0x00, 0xFF, 0x7F]`
(little-endian int16 samples 0 and 32767), processed mono at 24000 Hz,
yields a 48-byte WAV whose dataSize field is 4 and the playback buffer
`[[0, 32767/32768]]`; `audioPipeline` performs a single `decode` whose bytes
feed both the `Int16Array`-to-WAV arm and the playback arm, as the shared
interpretation conjuncts exhibit. -/
theorem C5_end_to_end (s : String)
    (h : decode s = some [0, 0, 255, 127]) :
    audioPipeline s = some (createWavBytes [0, 32767] 24000, [[0, 32767 / 32768]]) ∧
    (createWavBytes [0, 32767] 24000).length = 48 ∧
    readU32 (createWavBytes [0, 32767] 24000) 40 = 4 ∧
    bytesToInt16 [0, 0, 255, 127] = some [0, 32767] ∧
    decodeAudioData [0, 0, 255, 127] 1 = some [[0, 32767 / 32768]] := by
  have hbi : bytesToInt16 [0, 0, 255, 127] = some [0, 32767] := by decide
  have hda : decodeAudioData [0, 0, 255, 127] 1 = some [[0, 32767 / 32768]] := by
    rw [decodeAudioData_even _ _ (by norm_num)]
    norm_num [pcmSample, pairsToInt16, int16OfBytes, List.range_succ,
      List.range_zero]
  refine ⟨?_, by decide, by decide, hbi, hda⟩
  simp only [audioPipeline, h, hbi, hda]

/-- Witness for C5 at the concrete base64 input `"AAD/fw=="`. -/
theorem C5_end_to_end_witness :
    decode "AAD/fw==" = some [0, 0, 255, 127] ∧
    (audioPipeline "AAD/fw==" =
        some (createWavBytes [0, 32767] 24000, [[0, 32767 / 32768]]) ∧
      (createWavBytes [0, 32767] 24000).length = 48 ∧
      readU32 (createWavBytes [0, 32767] 24000) 40 = 4 ∧
      bytesToInt16 [0, 0, 255, 127] = some [0, 32767] ∧
      decodeAudioData [0, 0, 255, 127] 1 = some [[0, 32767 / 32768]]) :=
  ⟨by decide, C5_end_to_end "AAD/fw==" (by decide)⟩

/-! ## Claim C6: the encoder's channel count -/

/-- Counterexample to C6: the claim says a caller-supplied channel count
`n ≥ 1` reaches the header, but `createWavBlob` has no channel parameter —
its signature is `(pcmData, sampleRate)` — and for a four-sample sequence a
caller intending two channels still gets a header whose numChannels field is
1 and which differs from the section-4.3 header for 2 channels. -/
theorem C6_counterexample :
    readU16 (createWavBytes [1, 2, 3, 4] 44100) 22 = 1 ∧
    (createWavBytes [1, 2, 3, 4] 44100).take 44 ≠ specWavHeader 2 44100 8 :=
  ⟨by decide, by decide⟩

/-- C6 as amended: the encoder accepts no channel count; `numChannels` is
the constant 1 inside `createWavBlob`, so every encoded header has
numChannels field 1, block align 2 and byte rate `sampleRate * 2`. -/
theorem C6_amended_fixed_mono (pcm : List Int) (R : Nat)
    (hR32 : R * 2 < 4294967296) :
    readU16 (createWavBytes pcm R) 22 = 1 ∧
    readU16 (createWavBytes pcm R) 32 = 2 ∧
    readU32 (createWavBytes pcm R) 28 = R * 2 := by
  have e := createWavBytes_eq pcm R
  have hhl := specWavHeader_length 1 R (pcm.length * 2)
  refine ⟨?_, ?_, ?_⟩
  · rw [e, readU16_append_left _ _ _ (by omega),
      specWavHeader_numChannels _ _ _ (by omega)]
  · rw [e, readU16_append_left _ _ _ (by omega),
      specWavHeader_blockAlign _ _ _ (by omega)]
  · rw [e, readU32_append_left _ _ _ (by omega),
      specWavHeader_byteRate _ _ _ (by omega)]
    omega

/-- Witness for C6's amended statement at `pcm = [7]`, `R = 48000`. -/
theorem C6_amended_fixed_mono_witness :
    48000 * 2 < 4294967296 ∧
    (readU16 (createWavBytes [7] 48000) 22 = 1 ∧
      readU16 (createWavBytes [7] 48000) 32 = 2 ∧
      readU32 (createWavBytes [7] 48000) 28 = 48000 * 2) :=
  ⟨by norm_num, C6_amended_fixed_mono [7] 48000 (by norm_num)⟩

/-! ## Claim C7: error propagation through the orchestrator -/

lemma ensureCtx_audioUrl (st : AppState) : (ensureCtx st).audioUrl = st.audioUrl := by
  unfold ensureCtx; cases st.ctx <;> rfl

lemma ensureCtx_audioBuffer (st : AppState) :
    (ensureCtx st).audioBuffer = st.audioBuffer := by
  unfold ensureCtx; cases st.ctx <;> rfl

lemma ensureCtx_liveUrls (st : AppState) : (ensureCtx st).liveUrls = st.liveUrls := by
  unfold ensureCtx; cases st.ctx <;> rfl

lemma ensureCtx_nextUrl (st : AppState) : (ensureCtx st).nextUrl = st.nextUrl := by
  unfold ensureCtx; cases st.ctx <;> rfl

/-- Counterexample to C7: the originating cause is not preserved in the
surfaced error. Two generation requests whose speech calls fail with
different causes produce byte-for-byte identical application states — the
surfaced error is the fixed wrapped message `Failed to generate speech.` —
so no function of the surfaced state can recover the cause (it is only
logged to the console). -/
theorem C7_counterexample :
    handleGenerate "hello" (.apiError "network timeout") initialState =
      handleGenerate "hello" (.apiError "quota exceeded") initialState ∧
    (handleGenerate "hello" (.apiError "network timeout") initialState).error =
      some (.wrapped .speechFailed) ∧
    PipelineError.message .speechFailed = "Failed to generate speech." :=
  ⟨by decide, by decide, by decide⟩

/-- C7 as amended: every failing step surfaces exactly one wrapped error in
the UI error slot — the failure is never swallowed, and no partial output
(URL or buffer) is exposed on these paths — but the error the caller sees is
a generic wrapped message (`generateSpeech` replaces any underlying cause
with the fixed `Failed to generate speech.`), not an `AudioGenerationError`
carrying the cause. -/
theorem C7_amended_single_wrapped_error (text : String)
    (speech : SpeechOutcome) (st : AppState) (htext : isBlank text = false) :
    (∀ e, generateSpeech speech = .error e →
      (handleGenerate text speech st).error = some (.wrapped e) ∧
      (handleGenerate text speech st).audioUrl = none ∧
      (handleGenerate text speech st).audioBuffer = none) ∧
    (∀ b64, generateSpeech speech = .ok b64 → decode b64 = none →
      (handleGenerate text speech st).error = some (.wrapped .invalidCharacter) ∧
      (handleGenerate text speech st).audioUrl = none ∧
      (handleGenerate text speech st).audioBuffer = none) ∧
    (∀ b64 bytes, generateSpeech speech = .ok b64 → decode b64 = some bytes →
      bytesToInt16 bytes = none →
      (handleGenerate text speech st).error = some (.wrapped .rangeError) ∧
      (handleGenerate text speech st).audioUrl = none ∧
      (handleGenerate text speech st).audioBuffer = none) := by
  unfold handleGenerate
  refine ⟨?_, ?_, ?_⟩
  · intro e he
    simp only [he, htext, Bool.false_eq_true, if_false, ensureCtx_audioUrl,
      ensureCtx_audioBuffer]
    exact ⟨trivial, rfl, rfl⟩
  · intro b64 hok hdec
    simp only [hok, hdec, htext, Bool.false_eq_true, if_false, ensureCtx_audioUrl,
      ensureCtx_audioBuffer]
    exact ⟨trivial, rfl, rfl⟩
  · intro b64 bytes hok hdec hbi
    simp only [hok, hdec, hbi, htext, Bool.false_eq_true, if_false,
      ensureCtx_audioUrl, ensureCtx_audioBuffer]
    exact ⟨trivial, rfl, rfl⟩

/-- Witness for C7's amended statement: a request whose speech call reports
no audio payload. -/
theorem C7_amended_single_wrapped_error_witness :
    isBlank "hi" = false ∧
    ((handleGenerate "hi" .noAudio initialState).error =
        some (.wrapped .speechFailed) ∧
      (handleGenerate "hi" .noAudio initialState).audioUrl = none ∧
      (handleGenerate "hi" .noAudio initialState).audioBuffer = none) :=
  ⟨by decide,
    (C7_amended_single_wrapped_error "hi" .noAudio initialState (by decide)).1
      .speechFailed rfl⟩

/-! ## State invariant for the orchestration claims C8–C10 -/

/-- Invariant maintained by every user interaction: at most one
`AudioContext` instance is ever constructed (with rate 24000 and id 0 when
present), the set of live object URLs is exactly the currently exposed
handle, and any exposed handle is older than the next fresh one. -/
def StateInv (st : AppState) : Prop :=
  st.ctxCreated ≤ 1 ∧
  (st.ctx = none → st.ctxCreated = 0) ∧
  (∀ c, st.ctx = some c → c.sampleRate = 24000 ∧ c.id = 0 ∧ st.ctxCreated = 1) ∧
  st.liveUrls = st.audioUrl.toList ∧
  (∀ p, st.audioUrl = some p → p < st.nextUrl)

lemma stateInv_initialState : StateInv initialState := by
  refine ⟨?_, fun _ => rfl, ?_, rfl, ?_⟩
  · show (0 : Nat) ≤ 1; omega
  · intro c hc; exact Option.noConfusion hc
  · intro p hp; exact Option.noConfusion hp

lemma stateInv_clearPrevUrl (st : AppState) (h : StateInv st) :
    StateInv (clearPrevUrl st) := by
  obtain ⟨h1, h2, h3, h4, h5⟩ := h
  refine ⟨h1, h2, h3, ?_, ?_⟩
  · show (match st.audioUrl with
      | some u => st.liveUrls.erase u
      | none => st.liveUrls) = (none : Option Nat).toList
    cases hu : st.audioUrl with
    | none => rw [h4, hu]
    | some p => rw [h4, hu]; simp
  · intro p hp; exact Option.noConfusion hp

lemma ensureCtx_of_some (st : AppState) (c : AudioCtx) (hc : st.ctx = some c) :
    ensureCtx st = st := by
  unfold ensureCtx; rw [hc]

lemma stateInv_ensureCtx (st : AppState) (h : StateInv st) :
    StateInv (ensureCtx st) := by
  obtain ⟨h1, h2, h3, h4, h5⟩ := h
  unfold ensureCtx
  cases hc : st.ctx with
  | some c => exact ⟨h1, h2, h3, h4, h5⟩
  | none =>
    have h0 := h2 hc
    refine ⟨?_, fun hcc => Option.noConfusion hcc, ?_, h4, h5⟩
    · show st.ctxCreated + 1 ≤ 1
      omega
    · intro c hcc
      obtain rfl := (Option.some.inj hcc).symm
      refine ⟨rfl, h0, ?_⟩
      show st.ctxCreated + 1 = 1
      omega

lemma stateInv_handlePlay (st : AppState) (h : StateInv st) :
    StateInv (handlePlay st) := by
  obtain ⟨h1, h2, h3, h4, h5⟩ := h
  unfold handlePlay
  cases hb : st.audioBuffer with
  | none => cases hc : st.ctx <;> exact ⟨h1, h2, h3, h4, h5⟩
  | some b =>
    cases hc : st.ctx with
    | none => exact ⟨h1, h2, h3, h4, h5⟩
    | some c =>
      refine ⟨h1, fun hcc => Option.noConfusion hcc, ?_, h4, h5⟩
      intro c' hcc
      obtain rfl := (Option.some.inj hcc).symm
      obtain ⟨r1, r2, r3⟩ := h3 c hc
      exact ⟨r1, r2, r3⟩

lemma stateInv_handleGenerate (text : String) (speech : SpeechOutcome)
    (st : AppState) (h : StateInv st) :
    StateInv (handleGenerate text speech st) := by
  unfold handleGenerate
  cases hb : isBlank text with
  | true =>
    rw [if_pos rfl]
    exact h
  | false =>
    rw [if_neg (by simp)]
    have h1 := stateInv_ensureCtx _ (stateInv_clearPrevUrl _ h)
    obtain ⟨g1, g2, g3, g4, g5⟩ := h1
    have hurl : (ensureCtx (clearPrevUrl st)).audioUrl = none := by
      rw [ensureCtx_audioUrl]; rfl
    have hlive : (ensureCtx (clearPrevUrl st)).liveUrls = [] := by
      rw [g4, hurl]; rfl
    split
    · exact ⟨g1, g2, g3, g4, g5⟩
    · split
      · exact ⟨g1, g2, g3, g4, g5⟩
      · split
        · exact ⟨g1, g2, g3, g4, g5⟩
        · split
          · refine ⟨g1, g2, g3, ?_, ?_⟩
            · show (ensureCtx (clearPrevUrl st)).nextUrl ::
                (ensureCtx (clearPrevUrl st)).liveUrls =
                (some (ensureCtx (clearPrevUrl st)).nextUrl).toList
              rw [hlive]; rfl
            · intro p hp
              obtain rfl := (Option.some.inj hp).symm
              show (ensureCtx (clearPrevUrl st)).nextUrl <
                (ensureCtx (clearPrevUrl st)).nextUrl + 1
              omega
          · refine ⟨g1, g2, g3, ?_, ?_⟩
            · show (ensureCtx (clearPrevUrl st)).nextUrl ::
                (ensureCtx (clearPrevUrl st)).liveUrls =
                (some (ensureCtx (clearPrevUrl st)).nextUrl).toList
              rw [hlive]; rfl
            · intro p hp
              obtain rfl := (Option.some.inj hp).symm
              show (ensureCtx (clearPrevUrl st)).nextUrl <
                (ensureCtx (clearPrevUrl st)).nextUrl + 1
              omega

lemma stateInv_step (st : AppState) (e : Event) (h : StateInv st) :
    StateInv (step st e) := by
  cases e with
  | generate text speech => exact stateInv_handleGenerate text speech st h
  | play => exact stateInv_handlePlay st h

lemma stateInv_foldl :
    ∀ (l : List Event) (st : AppState), StateInv st → StateInv (l.foldl step st)
  | [], _, h => h
  | e :: rest, st, h => stateInv_foldl rest (step st e) (stateInv_step st e h)

lemma stateInv_run (events : List Event) : StateInv (run events) :=
  stateInv_foldl events initialState stateInv_initialState

lemma handlePlay_preserves (st : AppState) :
    (handlePlay st).ctxCreated = st.ctxCreated ∧
    ((handlePlay st).ctx).map AudioCtx.id = (st.ctx).map AudioCtx.id ∧
    ((handlePlay st).ctx).map AudioCtx.sampleRate =
      (st.ctx).map AudioCtx.sampleRate ∧
    (handlePlay st).audioUrl = st.audioUrl ∧
    (handlePlay st).audioBuffer = st.audioBuffer ∧
    (handlePlay st).liveUrls = st.liveUrls ∧
    (handlePlay st).error = st.error := by
  unfold handlePlay
  cases hb : st.audioBuffer <;> cases hc : st.ctx <;> simp [hb, hc]

lemma handleGenerate_ctx_reuse (text : String) (speech : SpeechOutcome)
    (st : AppState) (c : AudioCtx) (hc : st.ctx = some c) :
    (handleGenerate text speech st).ctx = some c ∧
    (handleGenerate text speech st).ctxCreated = st.ctxCreated := by
  unfold handleGenerate
  cases hb : isBlank text with
  | true => rw [if_pos rfl]; exact ⟨hc, rfl⟩
  | false =>
    rw [if_neg (by simp), ensureCtx_of_some (clearPrevUrl st) c hc]
    split
    · exact ⟨hc, rfl⟩
    · split
      · exact ⟨hc, rfl⟩
      · split
        · exact ⟨hc, rfl⟩
        · split
          · exact ⟨hc, rfl⟩
          · exact ⟨hc, rfl⟩

lemma handleGenerate_liveUrls_cases (text : String) (speech : SpeechOutcome)
    (st : AppState) (ht : isBlank text = false) :
    (handleGenerate text speech st).liveUrls = (clearPrevUrl st).liveUrls ∨
    (handleGenerate text speech st).liveUrls =
      st.nextUrl :: (clearPrevUrl st).liveUrls := by
  unfold handleGenerate
  rw [ht, if_neg (by simp)]
  split
  · exact Or.inl (ensureCtx_liveUrls (clearPrevUrl st))
  · split
    · exact Or.inl (ensureCtx_liveUrls (clearPrevUrl st))
    · split
      · exact Or.inl (ensureCtx_liveUrls (clearPrevUrl st))
      · split
        · refine Or.inr ?_
          show (ensureCtx (clearPrevUrl st)).nextUrl ::
            (ensureCtx (clearPrevUrl st)).liveUrls = _
          rw [ensureCtx_liveUrls, ensureCtx_nextUrl]
          rfl
        · refine Or.inr ?_
          show (ensureCtx (clearPrevUrl st)).nextUrl ::
            (ensureCtx (clearPrevUrl st)).liveUrls = _
          rw [ensureCtx_liveUrls, ensureCtx_nextUrl]
          rfl

/-! ## Claims C8, C9 and C10: the orchestrator's resources -/

/-- C8: at most one `AudioContext` instance exists per process lifetime —
after any sequence of interactions from a fresh mount, at most one was ever
constructed, always with sample rate 24000; the mount starts with none
(creation is lazy, in `handleGenerate`); playback never constructs one, so
playing twice in succession keeps the creation count and the instance
identity unchanged, and a generation request finding an existing instance
reuses exactly it. -/
theorem C8_single_audio_context (events : List Event) :
    (run events).ctxCreated ≤ 1 ∧
    (∀ c, (run events).ctx = some c → c.sampleRate = 24000 ∧ c.id = 0) ∧
    initialState.ctx = none ∧
    (∀ st : AppState, (handlePlay st).ctxCreated = st.ctxCreated ∧
      ((handlePlay st).ctx).map AudioCtx.id = (st.ctx).map AudioCtx.id) ∧
    (handlePlay (handlePlay (run events))).ctxCreated = (run events).ctxCreated ∧
    (∀ text speech c, (run events).ctx = some c →
      (handleGenerate text speech (run events)).ctx = some c ∧
      (handleGenerate text speech (run events)).ctxCreated =
        (run events).ctxCreated) := by
  obtain ⟨h1, h2, h3, h4, h5⟩ := stateInv_run events
  refine ⟨h1, fun c hc => ⟨(h3 c hc).1, (h3 c hc).2.1⟩, rfl, ?_, ?_, ?_⟩
  · intro st
    exact ⟨(handlePlay_preserves st).1, (handlePlay_preserves st).2.1⟩
  · rw [(handlePlay_preserves _).1, (handlePlay_preserves _).1]
  · intro text speech c hc
    exact handleGenerate_ctx_reuse text speech _ c hc

/-- Witness for C8 applied to a concrete session: one successful generation
followed by two plays. -/
theorem C8_single_audio_context_witness :
    (run [.generate "a" (.payload "AAA="), .play, .play]).ctxCreated ≤ 1 :=
  (C8_single_audio_context [.generate "a" (.payload "AAA="), .play, .play]).1

/-- C9: a generation request that starts (non-blank text) while a prior blob
URL is held revokes it first — after the initial clearing step no URL is
live — and after the whole request the prior handle is not live and at most
one handle is, so two live handles never coexist. -/
theorem C9_superseded_handle_released (events : List Event) (text : String)
    (speech : SpeechOutcome) (prior : Nat)
    (hheld : (run events).audioUrl = some prior)
    (htext : isBlank text = false) :
    (run events).liveUrls = [prior] ∧
    (clearPrevUrl (run events)).liveUrls = [] ∧
    prior ∉ (handleGenerate text speech (run events)).liveUrls ∧
    (handleGenerate text speech (run events)).liveUrls.length ≤ 1 := by
  obtain ⟨h1, h2, h3, h4, h5⟩ := stateInv_run events
  have hlive : (run events).liveUrls = [prior] := by rw [h4, hheld]; rfl
  have hfresh : prior < (run events).nextUrl := h5 prior hheld
  have hclear : (clearPrevUrl (run events)).liveUrls = [] := by
    show (match (run events).audioUrl with
      | some u => (run events).liveUrls.erase u
      | none => (run events).liveUrls) = []
    rw [hheld, hlive]
    simp
  refine ⟨hlive, hclear, ?_, ?_⟩
  · rcases handleGenerate_liveUrls_cases text speech (run events) htext with hU | hU
    · rw [hU, hclear]; simp
    · rw [hU, hclear]
      simp only [List.mem_singleton]
      omega
  · rcases handleGenerate_liveUrls_cases text speech (run events) htext with hU | hU
    · rw [hU, hclear]; simp
    · rw [hU, hclear]; simp

/-- Witness for C9: a successful generation holds handle 0; a second request
with non-blank text releases it before exposing a new handle. -/
theorem C9_superseded_handle_released_witness :
    ((run [.generate "a" (.payload "AAA=")]).audioUrl = some 0 ∧
      isBlank "b" = false) ∧
    ((run [.generate "a" (.payload "AAA=")]).liveUrls = [0] ∧
      (clearPrevUrl (run [.generate "a" (.payload "AAA=")])).liveUrls = [] ∧
      0 ∉ (handleGenerate "b" .noAudio
        (run [.generate "a" (.payload "AAA=")])).liveUrls ∧
      (handleGenerate "b" .noAudio
        (run [.generate "a" (.payload "AAA=")])).liveUrls.length ≤ 1) :=
  ⟨⟨by decide, by decide⟩,
    C9_superseded_handle_released [.generate "a" (.payload "AAA=")] "b"
      .noAudio 0 (by decide) (by decide)⟩

/-- C10: pressing Play with no playback buffer, or before any audio context
exists, is a silent no-op — the state is returned unchanged, nothing starts
playing and no error is raised — and a source node is started exactly when
both the buffer and the context are present. -/
theorem C10_play_guard (st : AppState) :
    (st.audioBuffer = none ∨ st.ctx = none → handlePlay st = st) ∧
    (∀ b c, st.audioBuffer = some b → st.ctx = some c →
      (handlePlay st).playing = b :: st.playing ∧
      (handlePlay st).error = st.error) ∧
    ((handlePlay st).playing ≠ st.playing →
      st.audioBuffer ≠ none ∧ st.ctx ≠ none) := by
  unfold handlePlay
  cases hb : st.audioBuffer with
  | none =>
    cases hc : st.ctx with
    | none =>
      exact ⟨fun _ => rfl, fun b c h1 _ => Option.noConfusion h1,
        fun hne => absurd rfl hne⟩
    | some c =>
      exact ⟨fun _ => rfl, fun b c h1 _ => Option.noConfusion h1,
        fun hne => absurd rfl hne⟩
  | some b =>
    cases hc : st.ctx with
    | none =>
      exact ⟨fun _ => rfl, fun b' c' _ h2 => Option.noConfusion h2,
        fun hne => absurd rfl hne⟩
    | some c =>
      refine ⟨?_, ?_, ?_⟩
      · rintro (h | h) <;> exact Option.noConfusion h
      · intro b' c' h1 h2
        obtain rfl := Option.some.inj h1
        exact ⟨rfl, rfl⟩
      · intro _
        exact ⟨by simp, by simp⟩

/-- Witness for C10 at the freshly mounted state, which holds neither a
buffer nor a context. -/
theorem C10_play_guard_witness : handlePlay initialState = initialState :=
  (C10_play_guard initialState).1 (Or.inl rfl)

end AudioPipeline
